import Mathlib

/-
Verification of the FBL3N item-update engine (src/server/engine/fbl3n.py)
and its caller (src/server/engine/controller.py).

The Python module drives an interactive SAP GUI session.  The embedding
makes the externally observable behaviour explicit:

* every GUI action the module performs (key press, button press, clipboard
  assignment, field write, grid-row selection) becomes an `Event` in an
  emitted trace;
* every Python exception becomes a constructor of `SapError` (Python
  `ValueError` ↦ `valueError`, `ItemLoadingError` ↦ `itemLoadingError`,
  `NoItemsFoundWarning` ↦ `noItemsFoundWarning`,
  `NoItemsFoundError` ↦ `noItemsFoundError`,
  `SapConnectionLostError` ↦ `sapConnectionLostError`,
  `UninitializedModuleError` ↦ `uninitializedModuleError`, and a Python
  dict `KeyError` ↦ `keyError`);
* the external SAP system's responses (field presence, status-bar text,
  the contents of the result grid after SAP applied the text filter) are
  inputs collected in an `Env` record — the module only observes them.

Python dicts become association lists (insertion order preserved, lookup
by key equality), which matches dict semantics for the duplicate-free key
sets the module receives.
-/

namespace ArItemsUpdater

/-- One row of the loaded FBL3N result grid: the values of the `SGTXT`
(text) and `ZUONR` (assignment) columns read by `_get_item_params`. -/
structure ItemRow where
  text : String
  assignment : String
deriving Repr, DecidableEq

/-- One value of the `parameters` dict passed to
`change_document_parameters`: the requested new field values
(`None` in Python ↦ `none`). -/
structure ChangeRequest where
  new_text : Option String
  new_assignment : Option String
deriving Repr, DecidableEq

/-- One value of the returned output dict: the request fields plus the
`message` entry.  `deepcopy(parameters)` produces entries without a
`message` key, modelled as `message = none`; the function then assigns a
message for every key before returning. -/
structure ChangeOutcome where
  new_text : Option String
  new_assignment : Option String
  message : Option String
deriving Repr, DecidableEq

/-- The exceptions raised by `fbl3n.py` (and the dict `KeyError` Python
itself raises at `parameters[old_text]`). -/
inductive SapError where
  | valueError (msg : String)
  | itemLoadingError (msg : String)
  | noItemsFoundWarning (msg : String)
  | noItemsFoundError (msg : String)
  | sapConnectionLostError (msg : String)
  | uninitializedModuleError (msg : String)
  | keyError (key : String)
deriving Repr, DecidableEq

/-- Observable GUI actions performed by the module, in program order.
`writeTextField` / `writeAssignmentField` are the writes to the item
fields `BSEG-SGTXT` / `BSEG-ZUONR`; `writeFormField` covers the selection
screen fields (company code, layout, worklist); `setClipboard` models
`pyperclip.copy`. -/
inductive Event where
  | pressKey (name : String)
  | pressButton (id : String)
  | setClipboard (content : String)
  | writeFormField (name : String) (val : String)
  | writeTextField (val : String)
  | writeAssignmentField (val : String)
  | selectRadio (name : String)
  | selectRow (idx : Nat)
  | selectFilterRow (idx : Nat)
deriving Repr, DecidableEq

/-- The external-session state observed by one invocation: which optional
GUI fields exist on the current screens, whether the F8 press goes
through, the status-bar text after loading (`none` models the read
itself failing), and the contents of the result grid once SAP has applied
the text filter. -/
structure Env where
  sessBound : Bool
  worklistFieldPresent : Bool
  sdBukrsPresent : Bool
  soWlbukPresent : Bool
  f8ok : Bool
  statusText : Option String
  filteredRows : List ItemRow
  assignmentFieldPresent : Bool
  filterFields : List String
deriving Repr, DecidableEq

/-- Does the first character list start with the second? -/
def charsHavePre : List Char → List Char → Bool
  | _, [] => true
  | [], _ :: _ => false
  | a :: as, b :: bs => a == b && charsHavePre as bs

/-- Does the first character list contain the second as a contiguous
sub-list?  Models the Python `pat in s` substring test. -/
def charsHaveSub : List Char → List Char → Bool
  | [], pat => charsHavePre [] pat
  | a :: t, pat => charsHavePre (a :: t) pat || charsHaveSub t pat

/-- Python `pat in s` for strings. -/
def strContainsSub (s pat : String) : Bool :=
  charsHaveSub s.toList pat.toList

/-- Python `str.isnumeric` restricted to ASCII content (the account and
company-code inputs of this module): non-empty and all characters decimal
digits. -/
def pyIsNumeric (s : String) : Bool :=
  s.length != 0 && s.toList.all Char.isDigit

/-- Python `"\r\n".join(xs)`. -/
def joinCRLF (xs : List String) : String :=
  String.intercalate "\r\n" xs

/-- Python `str.strip()`: removes leading and trailing whitespace (the
messages built here only ever carry trailing spaces). -/
def pyStrip (s : String) : String :=
  String.mk (((s.toList.dropWhile Char.isWhitespace).reverse.dropWhile
    Char.isWhitespace).reverse)

/-- `_set_text`: writes the item `Text` field `BSEG-SGTXT`, first
rejecting values longer than 50 characters with `ValueError`. -/
def _set_text (val : String) : Except SapError (List Event) :=
  if val.length > 50 then
    .error (.valueError ("The length of the entered value \x27" ++ val ++
      "\x27 exceeds the allowed maximum of 50 chars for this field!"))
  else
    .ok [Event.writeTextField val]

/-- `_set_assignment`: returns without doing anything when the
`BSEG-ZUONR` field is absent from the current screen; otherwise rejects
values longer than 18 characters with `ValueError` before writing. -/
def _set_assignment (zuonrPresent : Bool) (val : String) :
    Except SapError (List Event) :=
  if !zuonrPresent then
    .ok []
  else if val.length > 18 then
    .error (.valueError ("The length of the entered value \x27" ++ val ++
      "\x27 exceeds the allowed maximum of 18 chars for this field!"))
  else
    .ok [Event.writeAssignmentField val]

/-- `_set_layout`: writes the `PA_VARI` field. -/
def _set_layout (val : String) : List Event :=
  [Event.writeFormField "PA_VARI" val]

/-- `_toggle_worklist`: presses `CtrlF1` exactly when the requested mode
differs from the current one (current mode = presence of the `PA_WLSAK`
field). -/
def _toggle_worklist (activate worklistFieldPresent : Bool) : List Event :=
  if (activate && !worklistFieldPresent) || (!activate && worklistFieldPresent) then
    [Event.pressKey "CtrlF1"]
  else
    []

/-- `_set_company_code`: accepts the empty string or a four-character
numeric string, else raises `ValueError`; then writes whichever of the
two company-code fields exists on the current screen. -/
def _set_company_code (sdBukrsPresent soWlbukPresent : Bool) (val : String) :
    Except SapError (List Event) :=
  if !(val == "" || (val.length == 4 && pyIsNumeric val)) then
    .error (.valueError ("Company code has incorrect value: \x27" ++ val ++ "\x27!"))
  else if sdBukrsPresent then
    .ok [Event.writeFormField "SD_BUKRS-LOW" val]
  else if soWlbukPresent then
    .ok [Event.writeFormField "SO_WLBUK-LOW" val]
  else
    .ok []

/-- `_set_accounts`: rejects an empty account list and any non-numeric
account with `ValueError`; otherwise opens the multi-value picker, clears
previous values, stages the accounts on the clipboard, confirms, clears
the clipboard and confirms the values. -/
def _set_accounts (vals : List String) : Except SapError (List Event) :=
  if vals.length == 0 then
    .error (.valueError "No G/L accounts found!")
  else
    match vals.find? (fun v => !pyIsNumeric v) with
    | some v => .error (.valueError ("Invalid account number: " ++ v ++ "!"))
    | none =>
      .ok [Event.pressButton "%_SD_SAKNR_%_APP_%-VALU_PUSH",
           Event.pressKey "ShiftF4",
           Event.setClipboard (joinCRLF vals),
           Event.pressKey "ShiftF12",
           Event.setClipboard "",
           Event.pressKey "F8"]

/-- `_set_line_items_selection`: maps the item status to its radio
button, raising `ValueError` for an unrecognized status. -/
def _set_line_items_selection (status : String) : Except SapError (List Event) :=
  if status == "open" then .ok [Event.selectRadio "X_OPSEL"]
  else if status == "cleared" then .ok [Event.selectRadio "X_CLSEL"]
  else if status == "all" then .ok [Event.selectRadio "X_AISEL"]
  else .error (.valueError ("Unrecognized item status: \x27" ++ status ++ "\x27"))

/-- `_set_filter`: opens the Set Filter Values dialog, toggles technical
names, selects the row of the target field among the available filter
criteria (the list of field names is an `Env` input) and adds it, then
stages the filter values through the clipboard, clears the clipboard and
confirms. -/
def _set_filter (vals : List String) (filterFields : List String)
    (fld_tech_name : String) : List Event :=
  [Event.pressKey "CtrlShiftF2", Event.pressKey "CtrlShiftF6"] ++
  (match filterFields.findIdx? (fun f => f == fld_tech_name) with
   | some i => [Event.selectFilterRow i, Event.pressButton "APP_WL_SING"]
   | none => []) ++
  [Event.pressButton "600_BUTTON",
   Event.pressButton "%_%%DYN001_%_APP_%-VALU_PUSH",
   Event.setClipboard (joinCRLF vals),
   Event.pressKey "ShiftF12",
   Event.setClipboard "",
   Event.pressKey "F8",
   Event.pressKey "Enter"]

/-- `_load_items`: presses F8 (failure ↦ `ItemLoadingError`), then reads
the status bar (failed read ↦ `SapConnectionLostError`), classifies the
status text by the two fixed substring markers, and on success returns
the result-grid handle (the grid contents are an `Env` input). -/
def _load_items (f8ok : Bool) (statusText : Option String)
    (grid : List ItemRow) : Except SapError (List ItemRow) :=
  if !f8ok then
    .error (.itemLoadingError "Could not load account data!")
  else
    match statusText with
    | none => .error (.sapConnectionLostError "Connection to SAP lost!")
    | some msg =>
      if strContainsSub msg "No items selected" then
        .error (.noItemsFoundWarning "No items found using your selection criteria!")
      else if !strContainsSub msg "items displayed" then
        .error (.itemLoadingError msg)
      else
        .ok grid

/-- The company-code validation performed by
`controller.modify_accounting_parameters` before the engine is invoked:
exactly four numeric characters (the empty string is rejected here). -/
def modify_accounting_parameters_cocd_ok (cocd : String) : Bool :=
  cocd.length == 4 && pyIsNumeric cocd

/-- Python dict subscript `d[key]` on an association list: the value of
the entry with the matching key, or `none` (the Python `KeyError` case)
when no entry matches. -/
def dictLookup {β : Type} (k : String) : List (String × β) → Option β
  | [] => none
  | (a, b) :: t => if a == k then some b else dictLookup k t

/-- Python dict assignment `output[key]["message"] = msg` on the output
association list: the entry with the matching key gets the new message,
all other entries are unchanged. -/
def setMessage (out : List (String × ChangeOutcome)) (key msg : String) :
    List (String × ChangeOutcome) :=
  out.map (fun p => if p.1 == key then (p.1, { p.2 with message := some msg }) else p)

/-- The body of the row loop of `change_document_parameters` for one grid
row at index `idx` (source lines 516-552): select the row, read its text
and assignment, look the text up in `parameters` (an absent key is the
Python dict `KeyError`), compare the fields, and — unless both requested
values are present and already equal — enter row-edit mode, perform the
applicable field writes and save the row.  Returns the emitted events and
either the updated output or the raised error. -/
def process_row (zuonrPresent : Bool)
    (parameters : List (String × ChangeRequest)) (idx : Nat)
    (out : List (String × ChangeOutcome)) (row : ItemRow) :
    List Event × Except SapError (List (String × ChangeOutcome)) :=
  match dictLookup row.text parameters with
  | none => ([Event.selectRow idx], .error (.keyError row.text))
  | some req =>
    let st1 : String × Bool :=
      match req.new_text with
      | some t =>
        if t == row.text then ("Text aready contains the desired value. ", false)
        else ("", true)
      | none => ("", true)
    let st2 : String × Bool :=
      match req.new_assignment with
      | some a =>
        if row.assignment == a then
          (st1.1 ++ "Assignment aready contains the desired value. ", false)
        else (st1.1, true)
      | none => (st1.1, true)
    if !(st1.2 || st2.2) then
      ([Event.selectRow idx], .ok (setMessage out row.text (pyStrip st2.1)))
    else
      let wt : Except SapError (List Event × String) :=
        match req.new_text with
        | some t =>
          if st1.2 then
            match _set_text t with
            | .error e => .error e
            | .ok evs => .ok (evs, "Text updated. ")
          else .ok ([], "")
        | none => .ok ([], "")
      match wt with
      | .error e =>
        ([Event.selectRow idx, Event.pressKey "ShiftF2", Event.pressKey "ShiftF1"],
         .error e)
      | .ok (evsT, mT) =>
        let wa : Except SapError (List Event × String) :=
          match req.new_assignment with
          | some a =>
            if st2.2 then
              match _set_assignment zuonrPresent a with
              | .error e => .error e
              | .ok evs => .ok (evs, "Assignment updated. ")
            else .ok ([], "")
          | none => .ok ([], "")
        match wa with
        | .error e =>
          ([Event.selectRow idx, Event.pressKey "ShiftF2", Event.pressKey "ShiftF1"]
             ++ evsT, .error e)
        | .ok (evsA, mA) =>
          ([Event.selectRow idx, Event.pressKey "ShiftF2", Event.pressKey "ShiftF1"]
             ++ evsT ++ evsA ++ [Event.pressKey "CtrlS"],
           .ok (setMessage out row.text (pyStrip (st2.1 ++ mT ++ mA))))

/-- The row loop `for idx in range(0, item_table.RowCount)` of
`change_document_parameters`: process the rows in order, threading the
output dict, stopping at the first raised error. -/
def process_rows (zuonrPresent : Bool)
    (parameters : List (String × ChangeRequest)) (idx : Nat)
    (rows : List ItemRow) (out : List (String × ChangeOutcome)) :
    List Event × Except SapError (List (String × ChangeOutcome)) :=
  match rows with
  | [] => ([], .ok out)
  | row :: rest =>
    let pr := process_row zuonrPresent parameters idx out row
    match pr.2 with
    | .error e => (pr.1, .error e)
    | .ok out1 =>
      let rec2 := process_rows zuonrPresent parameters (idx + 1) rest out1
      (pr.1 ++ rec2.1, rec2.2)

/-- `output = deepcopy(parameters)` followed by the default-message loop:
every key starts with the message `"Document not found on the account!"`. -/
def init_output (parameters : List (String × ChangeRequest)) :
    List (String × ChangeOutcome) :=
  parameters.map (fun p =>
    (p.1, { new_text := p.2.new_text, new_assignment := p.2.new_assignment,
            message := some "Document not found on the account!" }))

/-- `change_document_parameters`: the full pipeline — prerequisite check,
worklist toggle, company code, layout, accounts, item-status selection,
item load, text filter, filter-miss check, then the row loop and the
final return-to-main-screen F3.  Returns the full event trace together
with either the outcome dict or the raised error. -/
def change_document_parameters (env : Env) (accounts : List String)
    (company_code : String) (parameters : List (String × ChangeRequest))
    (status : String) (layout : String) :
    List Event × Except SapError (List (String × ChangeOutcome)) :=
  if !env.sessBound then
    ([], .error (.uninitializedModuleError
      "Uninitialized module! Use the start() procedure to run the transaction first!"))
  else
    let ev1 := _toggle_worklist false env.worklistFieldPresent
    match _set_company_code env.sdBukrsPresent env.soWlbukPresent company_code with
    | .error e => (ev1, .error e)
    | .ok ev2 =>
      let ev3 := _set_layout layout
      match _set_accounts accounts with
      | .error e => (ev1 ++ ev2 ++ ev3, .error e)
      | .ok ev4 =>
        match _set_line_items_selection status with
        | .error e => (ev1 ++ ev2 ++ ev3 ++ ev4, .error e)
        | .ok ev5 =>
          let ev6 := [Event.pressKey "F8"]
          match _load_items env.f8ok env.statusText env.filteredRows with
          | .error e => (ev1 ++ ev2 ++ ev3 ++ ev4 ++ ev5 ++ ev6, .error e)
          | .ok grid =>
            let ev7 := _set_filter (parameters.map Prod.fst) env.filterFields "SGTXT"
            let pre := ev1 ++ ev2 ++ ev3 ++ ev4 ++ ev5 ++ ev6 ++ ev7
            if grid.length == 0 then
              (pre ++ [Event.pressKey "F3"],
               .error (.noItemsFoundError
                 "Filtering on the searched text values returned no results!"))
            else
              let out0 := init_output parameters
              let pl := process_rows env.assignmentFieldPresent parameters 0 grid out0
              match pl.2 with
              | .error e => (pre ++ pl.1, .error e)
              | .ok out => (pre ++ pl.1 ++ [Event.pressKey "F3"], .ok out)

/-- Is this event a write to one of the two item fields (`BSEG-SGTXT`,
`BSEG-ZUONR`)? -/
def Event.isItemFieldWrite : Event → Bool
  | .writeTextField _ => true
  | .writeAssignmentField _ => true
  | _ => false

/-- The item-field writes contained in a trace, in order. -/
def itemFieldWrites (evs : List Event) : List Event :=
  evs.filter Event.isItemFieldWrite

/-- The clipboard content left behind by a trace: the payload of the last
`setClipboard` event, if any. -/
def finalClipboard (evs : List Event) : Option String :=
  (evs.filterMap (fun e =>
    match e with
    | Event.setClipboard s => some s
    | _ => none)).getLast?

/-- The message left by the row loop for a row whose requested text and
assignment both already equal the current values. -/
def alreadyBothMsg : String :=
  "Text aready contains the desired value. Assignment aready contains the desired value."

/-- Environment of the end-to-end scenario of the spec (§8): two rows in
the filtered grid, a successful load. -/
def envC1 : Env :=
  { sessBound := true, worklistFieldPresent := false, sdBukrsPresent := true,
    soWlbukPresent := false, f8ok := true, statusText := some "2 items displayed",
    filteredRows := [⟨"OLDA", "X"⟩, ⟨"OLDC", "Y"⟩], assignmentFieldPresent := true,
    filterFields := ["SGTXT"] }

/-- The three change requests of the end-to-end scenario. -/
def paramsC1 : List (String × ChangeRequest) :=
  [("OLDA", ⟨some "NEWA", none⟩), ("OLDB", ⟨none, some "ASG1"⟩),
   ("OLDC", ⟨some "OLDC", none⟩)]

/-- The run of the end-to-end scenario. -/
def runC1 : List Event × Except SapError (List (String × ChangeOutcome)) :=
  change_document_parameters envC1 ["12345678"] "0075" paramsC1 "open" ""

/-- C1 counterexample: in the end-to-end scenario the outcome message for
`OLDC` is the code's literal string `"Text aready contains the desired
value."` (with the source's spelling), not the claimed `"Text already
contains the desired value."`. -/
theorem C1_counterexample :
  (dictLookup "OLDC" (runC1.2.toOption.getD [])).map ChangeOutcome.message
      = some (some "Text aready contains the desired value.")
  ∧ (dictLookup "OLDC" (runC1.2.toOption.getD [])).map ChangeOutcome.message
      ≠ some (some "Text already contains the desired value.") := by
  exact ⟨rfl, by decide⟩

/-- C1 (amended): the end-to-end scenario yields `"Text updated."` for
`OLDA`, `"Document not found on the account!"` for `OLDB`, and the
code's literal `"Text aready contains the desired value."` for `OLDC`;
the only item-field write of the whole run is the text write for the
`OLDA` row, so zero field writes are performed for the `OLDC` row. -/
theorem C1_scenario :
  runC1.2 = Except.ok
    [("OLDA", { new_text := some "NEWA", new_assignment := none,
                message := some "Text updated." }),
     ("OLDB", { new_text := none, new_assignment := some "ASG1",
                message := some "Document not found on the account!" }),
     ("OLDC", { new_text := some "OLDC", new_assignment := none,
                message := some "Text aready contains the desired value." })]
  ∧ itemFieldWrites runC1.1 = [Event.writeTextField "NEWA"] :=
  ⟨rfl, rfl⟩

/-- C2: classification of the status line read after the load command —
a failed read raises `SapConnectionLostError`; text containing the
`"No items selected"` marker raises `NoItemsFoundWarning` (the spec's
`NoItemsFound`); text without the `"items displayed"` marker raises
`ItemLoadingError` (the spec's `LoadFailed`) carrying that raw text;
otherwise the loaded grid handle is returned. -/
theorem C2_status_classification :
  ∀ (grid : List ItemRow) (msg : String),
    _load_items true none grid
        = Except.error (SapError.sapConnectionLostError "Connection to SAP lost!")
    ∧ (strContainsSub msg "No items selected" = true →
        _load_items true (some msg) grid
          = Except.error (SapError.noItemsFoundWarning
              "No items found using your selection criteria!"))
    ∧ (strContainsSub msg "No items selected" = false →
       strContainsSub msg "items displayed" = false →
        _load_items true (some msg) grid
          = Except.error (SapError.itemLoadingError msg))
    ∧ (strContainsSub msg "No items selected" = false →
       strContainsSub msg "items displayed" = true →
        _load_items true (some msg) grid = Except.ok grid) := by
  intro grid msg
  refine ⟨rfl, ?_, ?_, ?_⟩
  · intro h1
    simp [_load_items, h1]
  · intro h1 h2
    simp [_load_items, h1, h2]
  · intro h1 h2
    simp [_load_items, h1, h2]

/-- Witness for C2 at a concrete status text and grid. -/
theorem C2_witness :
    _load_items true (some "18 items displayed") ([] : List ItemRow)
      = Except.ok [] :=
  (C2_status_classification [] "18 items displayed").2.2.2 (by decide) (by decide)

/-- Environment for the C5 counterexample: the filtered grid contains a
row whose text `"ZZZ"` is not a key of the request mapping. -/
def envC5 : Env :=
  { sessBound := true, worklistFieldPresent := false, sdBukrsPresent := true,
    soWlbukPresent := false, f8ok := true, statusText := some "1 items displayed",
    filteredRows := [⟨"ZZZ", "X"⟩], assignmentFieldPresent := true,
    filterFields := ["SGTXT"] }

/-- Request mapping for the C5 counterexample. -/
def paramsC5 : List (String × ChangeRequest) :=
  [("OLDA", ⟨some "NEWA", none⟩)]

/-- The run for the C5 counterexample. -/
def runC5 : List Event × Except SapError (List (String × ChangeOutcome)) :=
  change_document_parameters envC5 ["1000"] "0075" paramsC5 "open" ""

/-- C5 counterexample: a loaded grid row whose text is not a request key
is NOT tolerated — `parameters[old_text]` raises a dict `KeyError` and
the run aborts instead of returning the default "not found" outcomes. -/
theorem C5_counterexample :
  runC5.2 = Except.error (SapError.keyError "ZZZ")
  ∧ runC5.2 ≠ Except.ok (init_output paramsC5) := by
  have h : runC5.2 = Except.error (SapError.keyError "ZZZ") := rfl
  refine ⟨h, ?_⟩
  rw [h]
  intro hc
  exact Except.noConfusion hc

/-- C5 (amended): for every grid row whose text is absent from the
request mapping, the row loop raises `KeyError` at that row (after
selecting it, before any further processing) instead of skipping it. -/
theorem C5_keyerror (z : Bool) (parameters : List (String × ChangeRequest))
    (idx : Nat) (out : List (String × ChangeOutcome)) (row : ItemRow)
    (h : dictLookup row.text parameters = none) :
    process_row z parameters idx out row
      = ([Event.selectRow idx], Except.error (SapError.keyError row.text)) := by
  simp [process_row, h]

/-- Witness for C5 at a concrete row and empty request mapping. -/
theorem C5_witness :
    process_row true [] 0 [] ⟨"Z", ""⟩
      = ([Event.selectRow 0], Except.error (SapError.keyError "Z")) :=
  C5_keyerror true [] 0 [] ⟨"Z", ""⟩ rfl

/-- C6: a text value longer than 50 characters makes `_set_text` raise
`ValueError` (the spec's `ValueTooLong`) with no write event; an
assignment value longer than 18 characters makes `_set_assignment` raise
`ValueError` with no write event when the field is present; when the
assignment field is absent the write is skipped entirely (no event, no
error). -/
theorem C6_field_length_guard :
  ∀ (t a : String),
    (t.length > 50 →
      _set_text t = Except.error (SapError.valueError
        ("The length of the entered value \x27" ++ t ++
         "\x27 exceeds the allowed maximum of 50 chars for this field!")))
    ∧ (a.length > 18 →
      _set_assignment true a = Except.error (SapError.valueError
        ("The length of the entered value \x27" ++ a ++
         "\x27 exceeds the allowed maximum of 18 chars for this field!")))
    ∧ _set_assignment false a = Except.ok [] := by
  intro t a
  refine ⟨?_, ?_, rfl⟩
  · intro h
    simp [_set_text, h]
  · intro h
    simp [_set_assignment, h]

/-- A 51-character text value. -/
def longTextVal : String := String.mk (List.replicate 51 'A')

/-- A 19-character assignment value. -/
def longAssignVal : String := String.mk (List.replicate 19 'B')

/-- Witness for C6 at concrete over-long values. -/
theorem C6_witness :
    _set_text longTextVal = Except.error (SapError.valueError
      ("The length of the entered value \x27" ++ longTextVal ++
       "\x27 exceeds the allowed maximum of 50 chars for this field!"))
    ∧ _set_assignment true longAssignVal = Except.error (SapError.valueError
      ("The length of the entered value \x27" ++ longAssignVal ++
       "\x27 exceeds the allowed maximum of 18 chars for this field!"))
    ∧ _set_assignment false longAssignVal = Except.ok [] :=
  ⟨(C6_field_length_guard longTextVal longAssignVal).1 (by decide),
   (C6_field_length_guard longTextVal longAssignVal).2.1 (by decide),
   (C6_field_length_guard longTextVal longAssignVal).2.2⟩

/-- C7 counterexample: the engine's `_set_company_code` ACCEPTS the empty
string (writing it to the company-code field) — it does not raise for
`""` as the claim states; the exactly-four-digits rejection of `""` is
the controller's upstream check. -/
theorem C7_counterexample :
  _set_company_code true false "" = Except.ok [Event.writeFormField "SD_BUKRS-LOW" ""]
  ∧ modify_accounting_parameters_cocd_ok "" = false :=
  ⟨rfl, rfl⟩

/-- C7 (amended): the engine accepts exactly the empty string and the
strings of four numeric characters (`"075"` and `"07A5"` are rejected
with `ValueError`, `"0075"` is accepted), while the controller's
validation accepts exactly the strings of four numeric characters,
rejecting `""`. -/
theorem C7_company_code_validation :
  (∀ (sd so : Bool) (val : String),
    (∃ evs, _set_company_code sd so val = Except.ok evs) ↔
      (val = "" ∨ (val.length = 4 ∧ pyIsNumeric val = true)))
  ∧ (∃ evs, _set_company_code true false "0075" = Except.ok evs)
  ∧ (∀ (sd so : Bool) (evs : List Event),
      _set_company_code sd so "075" ≠ Except.ok evs)
  ∧ (∀ (sd so : Bool) (evs : List Event),
      _set_company_code sd so "07A5" ≠ Except.ok evs)
  ∧ (∀ cocd : String, modify_accounting_parameters_cocd_ok cocd = true ↔
      (cocd.length = 4 ∧ pyIsNumeric cocd = true)) := by
  have key : ∀ (sd so : Bool) (val : String),
      (∃ evs, _set_company_code sd so val = Except.ok evs) ↔
        (val = "" ∨ (val.length = 4 ∧ pyIsNumeric val = true)) := by
    intro sd so val
    constructor
    · rintro ⟨evs, h⟩
      by_cases hc : (val == "" || (val.length == 4 && pyIsNumeric val)) = true
      · simpa using hc
      · simp [_set_company_code, hc] at h
    · intro hd
      have hc : (val == "" || (val.length == 4 && pyIsNumeric val)) = true := by
        simpa using hd
      cases sd <;> cases so <;> simp [_set_company_code, hc]
  refine ⟨key, ?_, ?_, ?_, ?_⟩
  · exact (key true false "0075").mpr (Or.inr (by decide))
  · intro sd so evs h
    have := (key sd so "075").mp ⟨evs, h⟩
    revert this
    decide
  · intro sd so evs h
    have := (key sd so "07A5").mp ⟨evs, h⟩
    revert this
    decide
  · intro cocd
    simp [modify_accounting_parameters_cocd_ok]

/-- Witness for C7 at a concrete accepted company code. -/
theorem C7_witness : ∃ evs, _set_company_code true false "0075" = Except.ok evs :=
  (C7_company_code_validation.1 true false "0075").mpr (Or.inr (by decide))

/-- C9: both clipboard-mediated bulk insertions (accounts in
`_set_accounts`, filter values in `_set_filter`) end with the clipboard
cleared — on normal completion the last clipboard assignment of the
emitted trace is the empty string, so no user data remains in the shared
medium. -/
theorem C9_clipboard_cleared :
  (∀ (vals : List String) (evs : List Event),
    _set_accounts vals = Except.ok evs → finalClipboard evs = some "")
  ∧ (∀ (vals flds : List String) (fld : String),
      finalClipboard (_set_filter vals flds fld) = some "") := by
  constructor
  · intro vals evs h
    unfold _set_accounts at h
    split at h
    · simp at h
    · split at h
      · simp at h
      · injection h with h'
        subst h'
        rfl
  · intro vals flds fld
    unfold _set_filter finalClipboard
    split <;> rfl

/-- Witness for C9 at a concrete account list. -/
theorem C9_witness :
    finalClipboard [Event.pressButton "%_SD_SAKNR_%_APP_%-VALU_PUSH",
      Event.pressKey "ShiftF4", Event.setClipboard (joinCRLF ["100"]),
      Event.pressKey "ShiftF12", Event.setClipboard "", Event.pressKey "F8"]
      = some "" :=
  C9_clipboard_cleared.1 ["100"] _ rfl

/-- Looking up the updated key after `setMessage` returns the original
entry with its message replaced. -/
theorem lookup_setMessage (out : List (String × ChangeOutcome)) (k m : String) :
    dictLookup k (setMessage out k m)
      = (dictLookup k out).map (fun o => { o with message := some m }) := by
  induction out with
  | nil => rfl
  | cons p t ih =>
    obtain ⟨pk, po⟩ := p
    simp only [setMessage, List.map_cons] at ih ⊢
    by_cases hpk : (pk == k) = true
    · rw [if_pos hpk]
      simp only [dictLookup, hpk, if_true]
      rfl
    · rw [if_neg hpk]
      simp only [dictLookup, hpk, if_false]
      exact ih

/-- `setMessage` leaves the key sequence of the output unchanged. -/
theorem setMessage_keys (out : List (String × ChangeOutcome)) (k m : String) :
    (setMessage out k m).map Prod.fst = out.map Prod.fst := by
  induction out with
  | nil => rfl
  | cons p t ih =>
    simp only [setMessage, List.map_cons] at ih ⊢
    by_cases hp : (p.1 == k) = true
    · rw [if_pos hp]
      rw [ih]
    · rw [if_neg hp]
      rw [ih]

/-- `setMessage` keeps every entry's message defined. -/
theorem setMessage_message_isSome (out : List (String × ChangeOutcome))
    (k m : String) (h : ∀ p ∈ out, p.2.message.isSome = true) :
    ∀ p ∈ setMessage out k m, p.2.message.isSome = true := by
  intro p hp
  simp only [setMessage, List.mem_map] at hp
  obtain ⟨q, hq, hfq⟩ := hp
  by_cases hqk : (q.1 == k) = true
  · rw [if_pos hqk] at hfq
    rw [← hfq]
    rfl
  · rw [if_neg hqk] at hfq
    rw [← hfq]
    exact h q hq

/-- A successful `process_row` only rewrites the processed row's message:
the new output is `setMessage` of the old one at the row's text. -/
theorem process_row_ok_shape (z : Bool) (parameters : List (String × ChangeRequest))
    (idx : Nat) (out : List (String × ChangeOutcome)) (row : ItemRow)
    (evs : List Event) (out1 : List (String × ChangeOutcome))
    (h : process_row z parameters idx out row = (evs, Except.ok out1)) :
    ∃ m, out1 = setMessage out row.text m := by
  unfold process_row at h
  repeat' (first | split at h | simp at h)
  all_goals (
    obtain ⟨h1, h2⟩ := h
    exact ⟨_, h2.symm⟩)

/-- `_load_items` returns exactly the grid handle it was given. -/
theorem load_items_ok_eq (f8ok : Bool) (st : Option String)
    (grid grid' : List ItemRow) (h : _load_items f8ok st grid = Except.ok grid') :
    grid' = grid := by
  unfold _load_items at h
  split at h
  · simp at h
  · split at h
    · simp at h
    · split at h
      · simp at h
      · split at h
        · simp at h
        · injection h with h2
          exact h2.symm

/-- C10: a grid row matching a request with both `new_text` and
`new_assignment` null leaves both difference flags true, so the loop
still enters row-edit mode (`ShiftF2`, `ShiftF1`) and saves (`CtrlS`)
while performing zero item-field writes, and the entry's message becomes
the empty string, overwriting the default "not found" message. -/
theorem C10_null_request_row (z : Bool)
    (parameters : List (String × ChangeRequest)) (idx : Nat)
    (out : List (String × ChangeOutcome)) (row : ItemRow)
    (h : dictLookup row.text parameters
      = some { new_text := none, new_assignment := none }) :
    process_row z parameters idx out row
      = ([Event.selectRow idx, Event.pressKey "ShiftF2", Event.pressKey "ShiftF1",
          Event.pressKey "CtrlS"],
         Except.ok (setMessage out row.text ""))
    ∧ (∀ o, dictLookup row.text out = some o →
        dictLookup row.text (setMessage out row.text "")
          = some { o with message := some "" })
    ∧ itemFieldWrites [Event.selectRow idx, Event.pressKey "ShiftF2",
        Event.pressKey "ShiftF1", Event.pressKey "CtrlS"] = [] := by
  refine ⟨?_, ?_, rfl⟩
  · unfold process_row
    rw [h]
    rfl
  · intro o ho
    rw [lookup_setMessage, ho]
    rfl

/-- Witness for C10 at a concrete row, request and output. -/
theorem C10_witness :
    process_row true [("T", { new_text := none, new_assignment := none })] 0
        [("T", { new_text := none, new_assignment := none,
                 message := some "Document not found on the account!" })]
        ⟨"T", "A"⟩
      = ([Event.selectRow 0, Event.pressKey "ShiftF2", Event.pressKey "ShiftF1",
          Event.pressKey "CtrlS"],
         Except.ok (setMessage
           [("T", { new_text := none, new_assignment := none,
                    message := some "Document not found on the account!" })] "T" "")) :=
  (C10_null_request_row true [("T", { new_text := none, new_assignment := none })] 0
    [("T", { new_text := none, new_assignment := none,
             message := some "Document not found on the account!" })] ⟨"T", "A"⟩ rfl).1

/-- C8: when the pipeline reaches the post-filter row-count check and the
filter has reduced the grid to zero rows, the engine presses F3 (return
to main screen, the trace's last event) and raises `NoItemsFoundError`
(the spec's `NoMatchingItems`) — a constructor distinct from the
`NoItemsFoundWarning` (the spec's `NoItemsFound`) raised when the account
selection itself finds no items. -/
theorem C8_filter_miss (env : Env) (accounts : List String)
    (company_code : String) (parameters : List (String × ChangeRequest))
    (status layout : String) (ev2 ev4 ev5 : List Event)
    (h1 : env.sessBound = true)
    (hcc : _set_company_code env.sdBukrsPresent env.soWlbukPresent company_code
      = Except.ok ev2)
    (hacc : _set_accounts accounts = Except.ok ev4)
    (hsel : _set_line_items_selection status = Except.ok ev5)
    (hload : _load_items env.f8ok env.statusText env.filteredRows
      = Except.ok env.filteredRows)
    (hempty : env.filteredRows = []) :
    (change_document_parameters env accounts company_code parameters status layout).2
        = Except.error (SapError.noItemsFoundError
            "Filtering on the searched text values returned no results!")
    ∧ (change_document_parameters env accounts company_code parameters
        status layout).1.getLast? = some (Event.pressKey "F3")
    ∧ (∀ m1 m2, SapError.noItemsFoundError m1 ≠ SapError.noItemsFoundWarning m2) := by
  rw [hempty] at hload
  have hshape : change_document_parameters env accounts company_code parameters
      status layout
      = (_toggle_worklist false env.worklistFieldPresent ++ ev2 ++ _set_layout layout
          ++ ev4 ++ ev5 ++ [Event.pressKey "F8"]
          ++ _set_filter (parameters.map Prod.fst) env.filterFields "SGTXT"
          ++ [Event.pressKey "F3"],
         Except.error (SapError.noItemsFoundError
           "Filtering on the searched text values returned no results!")) := by
    unfold change_document_parameters
    rw [hempty]
    simp [h1, hcc, hacc, hsel, hload]
  refine ⟨?_, ?_, ?_⟩
  · rw [hshape]
  · rw [hshape]
    simp only
    rw [List.getLast?_concat]
  · intro m1 m2 hc
    exact SapError.noConfusion hc

/-- Decomposition of a successful `change_document_parameters` run: every
stage of the pipeline must have succeeded, the outcome comes from the row
loop, and the trace is the concatenation of the stage traces followed by
the final F3. -/
theorem cdp_ok_shape (env : Env) (accounts : List String)
    (company_code : String) (parameters : List (String × ChangeRequest))
    (status layout : String) (tr : List Event)
    (out : List (String × ChangeOutcome))
    (h : change_document_parameters env accounts company_code parameters
      status layout = (tr, Except.ok out)) :
    ∃ ev2 ev4 ev5 grid evsL,
      env.sessBound = true
      ∧ _set_company_code env.sdBukrsPresent env.soWlbukPresent company_code
          = Except.ok ev2
      ∧ _set_accounts accounts = Except.ok ev4
      ∧ _set_line_items_selection status = Except.ok ev5
      ∧ _load_items env.f8ok env.statusText env.filteredRows = Except.ok grid
      ∧ process_rows env.assignmentFieldPresent parameters 0 grid
          (init_output parameters) = (evsL, Except.ok out)
      ∧ tr = _toggle_worklist false env.worklistFieldPresent ++ ev2
          ++ _set_layout layout ++ ev4 ++ ev5 ++ [Event.pressKey "F8"]
          ++ _set_filter (parameters.map Prod.fst) env.filterFields "SGTXT"
          ++ evsL ++ [Event.pressKey "F3"] := by
  unfold change_document_parameters at h
  cases hsb : env.sessBound
  · rw [hsb] at h
    simp at h
  · rw [hsb, Bool.not_true, if_neg Bool.false_ne_true] at h
    rcases hcc : _set_company_code env.sdBukrsPresent env.soWlbukPresent
        company_code with e | ev2 <;> rw [hcc] at h
    · simp at h
    rcases hacc : _set_accounts accounts with e | ev4 <;> rw [hacc] at h
    · simp at h
    rcases hsel : _set_line_items_selection status with e | ev5 <;> rw [hsel] at h
    · simp at h
    rcases hload : _load_items env.f8ok env.statusText env.filteredRows
        with e | grid <;> rw [hload] at h
    · simp at h
    try dsimp only at h
    cases hlen : grid.length == 0
    · rw [hlen, if_neg Bool.false_ne_true] at h
      try dsimp only at h
      rcases hpl : process_rows env.assignmentFieldPresent parameters 0 grid
          (init_output parameters) with ⟨evsL, resL⟩
      rw [hpl] at h
      cases resL with
      | error e => simp at h
      | ok out1 =>
        dsimp only at h
        have h2 := congrArg Prod.snd h
        dsimp only at h2
        injection h2 with h3
        subst h3
        have h1 := congrArg Prod.fst h
        dsimp only at h1
        exact ⟨ev2, ev4, ev5, grid, evsL, rfl, rfl, rfl, rfl, rfl, hpl, h1.symm⟩
    · rw [hlen] at h
      simp at h

/-- Keys are preserved and messages stay defined through a successful run
of the row loop. -/
theorem process_rows_ok_inv (z : Bool)
    (parameters : List (String × ChangeRequest)) :
    ∀ (rows : List ItemRow) (idx : Nat)
      (out0 : List (String × ChangeOutcome)) (evs : List Event)
      (out : List (String × ChangeOutcome)),
      process_rows z parameters idx rows out0 = (evs, Except.ok out) →
      out.map Prod.fst = out0.map Prod.fst
      ∧ ((∀ p ∈ out0, p.2.message.isSome = true) →
          ∀ p ∈ out, p.2.message.isSome = true) := by
  intro rows
  induction rows with
  | nil =>
    intro idx out0 evs out h
    rw [process_rows] at h
    have h2 := congrArg Prod.snd h
    dsimp only at h2
    injection h2 with h3
    subst h3
    exact ⟨rfl, fun hm => hm⟩
  | cons row rest ih =>
    intro idx out0 evs out h
    rw [process_rows] at h
    rcases hpr : process_row z parameters idx out0 row with ⟨evs1, res1⟩
    rw [hpr] at h
    cases res1 with
    | error e => simp at h
    | ok out1 =>
      dsimp only at h
      rcases hrec : process_rows z parameters (idx + 1) rest out1 with ⟨evs2, res2⟩
      rw [hrec] at h
      have h2 := congrArg Prod.snd h
      dsimp only at h2
      subst h2
      obtain ⟨hk, hm⟩ := ih (idx + 1) out1 evs2 out hrec
      obtain ⟨m, hm1⟩ := process_row_ok_shape z parameters idx out0 row evs1 out1 hpr
      subst hm1
      exact ⟨hk.trans (setMessage_keys out0 row.text m),
             fun hall => hm (setMessage_message_isSome out0 row.text m hall)⟩

/-- The initial output has the same keys as the request mapping. -/
theorem init_output_keys (parameters : List (String × ChangeRequest)) :
    (init_output parameters).map Prod.fst = parameters.map Prod.fst := by
  induction parameters with
  | nil => rfl
  | cons p t ih =>
    simp only [init_output, List.map_cons] at ih ⊢
    rw [ih]

/-- Every entry of the initial output carries a message. -/
theorem init_output_message_isSome (parameters : List (String × ChangeRequest)) :
    ∀ p ∈ init_output parameters, p.2.message.isSome = true := by
  intro p hp
  simp only [init_output, List.mem_map] at hp
  obtain ⟨q, hq, hqe⟩ := hp
  rw [← hqe]
  rfl

/-- C3: every key of the request mapping appears exactly once in the
returned outcome mapping (the key sequences coincide), and every
returned entry carries a non-null message. -/
theorem C3_outcome_completeness (env : Env) (accounts : List String)
    (company_code : String) (parameters : List (String × ChangeRequest))
    (status layout : String) (tr : List Event)
    (out : List (String × ChangeOutcome))
    (h : change_document_parameters env accounts company_code parameters
      status layout = (tr, Except.ok out)) :
    out.map Prod.fst = parameters.map Prod.fst
    ∧ (∀ p ∈ out, p.2.message ≠ none)
    ∧ ((parameters.map Prod.fst).Nodup →
        ∀ k ∈ parameters.map Prod.fst, (out.map Prod.fst).count k = 1) := by
  obtain ⟨ev2, ev4, ev5, grid, evsL, hsb, hcc, hacc, hsel, hload, hpl, htr⟩ :=
    cdp_ok_shape env accounts company_code parameters status layout tr out h
  obtain ⟨hk, hm⟩ := process_rows_ok_inv env.assignmentFieldPresent parameters
    grid 0 (init_output parameters) evsL out hpl
  have hkeys : out.map Prod.fst = parameters.map Prod.fst :=
    hk.trans (init_output_keys parameters)
  refine ⟨hkeys, ?_, ?_⟩
  · intro p hp
    exact Option.isSome_iff_ne_none.mp
      (hm (init_output_message_isSome parameters) p hp)
  · intro hnod k hkmem
    rw [hkeys]
    exact List.count_eq_one_of_mem hnod hkmem

/-- Environment for the C3 witness. -/
def envC3 : Env :=
  { sessBound := true, worklistFieldPresent := false, sdBukrsPresent := true,
    soWlbukPresent := false, f8ok := true, statusText := some "1 items displayed",
    filteredRows := [⟨"A", "X"⟩], assignmentFieldPresent := true,
    filterFields := ["SGTXT"] }

/-- Request mapping for the C3 witness: one found key, one unmatched key. -/
def paramsC3 : List (String × ChangeRequest) :=
  [("A", ⟨some "B", none⟩), ("C", ⟨some "D", none⟩)]

/-- The run for the C3 witness. -/
def runC3 : List Event × Except SapError (List (String × ChangeOutcome)) :=
  change_document_parameters envC3 ["4711"] "0075" paramsC3 "open" ""

/-- Witness for C3 at a concrete run. -/
theorem C3_witness :
    (runC3.2.toOption.getD []).map Prod.fst = paramsC3.map Prod.fst
    ∧ (∀ p ∈ runC3.2.toOption.getD [], p.2.message ≠ none)
    ∧ ((paramsC3.map Prod.fst).Nodup →
        ∀ k ∈ paramsC3.map Prod.fst,
          ((runC3.2.toOption.getD []).map Prod.fst).count k = 1) :=
  C3_outcome_completeness envC3 ["4711"] "0075" paramsC3 "open" "" runC3.1
    (runC3.2.toOption.getD []) rfl

/-- The row loop leaves a row whose requested values both already equal
the current values untouched: only the row is selected, no edit commands
and no writes are issued, and the entry's message becomes the combined
"aready contains" message. -/
theorem process_row_all_equal (z : Bool)
    (parameters : List (String × ChangeRequest)) (idx : Nat)
    (out : List (String × ChangeOutcome)) (row : ItemRow)
    (h : dictLookup row.text parameters
      = some { new_text := some row.text, new_assignment := some row.assignment }) :
    process_row z parameters idx out row
      = ([Event.selectRow idx],
         Except.ok (setMessage out row.text alreadyBothMsg)) := by
  unfold process_row
  rw [h]
  simp only [beq_self_eq_true]
  rfl

/-- Closed form of the row loop when every row's requested values already
equal the current ones: the loop succeeds, the trace holds no item-field
writes, and exactly the entries with a matching row get the combined
"aready contains" message. -/
theorem process_rows_all_equal (z : Bool)
    (parameters : List (String × ChangeRequest)) :
    ∀ (rows : List ItemRow),
      (∀ r ∈ rows, dictLookup r.text parameters
        = some { new_text := some r.text, new_assignment := some r.assignment }) →
      ∀ (idx : Nat) (out : List (String × ChangeOutcome)),
      ∃ evs, process_rows z parameters idx rows out
          = (evs, Except.ok (out.map (fun p =>
              if rows.any (fun r => r.text == p.1) then
                (p.1, { p.2 with message := some alreadyBothMsg }) else p)))
        ∧ itemFieldWrites evs = [] := by
  intro rows
  induction rows with
  | nil =>
    intro _ idx out
    refine ⟨[], ?_, rfl⟩
    rw [process_rows]
    simp
  | cons row rest ih =>
    intro hall idx out
    have hr := hall row (List.mem_cons_self row rest)
    have hrest : ∀ r ∈ rest, dictLookup r.text parameters
        = some { new_text := some r.text, new_assignment := some r.assignment } :=
      fun r hrr => hall r (List.mem_cons_of_mem row hrr)
    obtain ⟨evs2, hrec, hw⟩ := ih hrest (idx + 1) (setMessage out row.text alreadyBothMsg)
    refine ⟨[Event.selectRow idx] ++ evs2, ?_, ?_⟩
    · rw [process_rows, process_row_all_equal z parameters idx out row hr]
      dsimp only
      rw [hrec]
      dsimp only
      have hfun : ((fun p : String × ChangeOutcome =>
            if rest.any (fun r => r.text == p.1) then
              (p.1, { p.2 with message := some alreadyBothMsg }) else p)
          ∘ (fun p : String × ChangeOutcome =>
            if p.1 == row.text then
              (p.1, { p.2 with message := some alreadyBothMsg }) else p))
          = (fun p : String × ChangeOutcome =>
            if (row :: rest).any (fun r => r.text == p.1) then
              (p.1, { p.2 with message := some alreadyBothMsg }) else p) := by
        funext p
        cases h1 : p.1 == row.text with
        | false =>
          have h1' : (row.text == p.1) = false := by
            rw [beq_eq_false_iff_ne] at h1 ⊢
            exact fun hc => h1 hc.symm
          simp [Function.comp, h1, h1', List.any_cons]
        | true =>
          have h1' : (row.text == p.1) = true := by
            rw [beq_iff_eq] at h1 ⊢
            exact h1.symm
          by_cases h2 : (rest.any (fun r => r.text == p.1)) = true <;>
            simp [Function.comp, h1, h1', h2, List.any_cons]
      rw [setMessage, List.map_map, hfun]
    · simp only [itemFieldWrites] at hw ⊢
      rw [List.filter_append, hw]
      rfl

/-- The worklist toggle issues no item-field write. -/
theorem toggle_no_item_writes (a b : Bool) :
    itemFieldWrites (_toggle_worklist a b) = [] := by
  unfold _toggle_worklist
  split <;> rfl

/-- The layout write is no item-field write. -/
theorem set_layout_no_item_writes (v : String) :
    itemFieldWrites (_set_layout v) = [] := rfl

/-- A successful company-code write issues no item-field write. -/
theorem scc_ok_no_item_writes (sd so : Bool) (v : String) (evs : List Event)
    (h : _set_company_code sd so v = Except.ok evs) :
    itemFieldWrites evs = [] := by
  unfold _set_company_code at h
  split at h
  · simp at h
  · split at h
    · injection h with h'
      subst h'
      rfl
    · split at h
      · injection h with h'
        subst h'
        rfl
      · injection h with h'
        subst h'
        rfl

/-- A successful account insertion issues no item-field write. -/
theorem sacc_ok_no_item_writes (vals : List String) (evs : List Event)
    (h : _set_accounts vals = Except.ok evs) : itemFieldWrites evs = [] := by
  unfold _set_accounts at h
  split at h
  · simp at h
  · split at h
    · simp at h
    · injection h with h'
      subst h'
      rfl

/-- A successful status selection issues no item-field write. -/
theorem ssel_ok_no_item_writes (status : String) (evs : List Event)
    (h : _set_line_items_selection status = Except.ok evs) :
    itemFieldWrites evs = [] := by
  unfold _set_line_items_selection at h
  split at h
  · injection h with h'
    subst h'
    rfl
  · split at h
    · injection h with h'
      subst h'
      rfl
    · split at h
      · injection h with h'
        subst h'
        rfl
      · simp at h

/-- The filter dialog sequence issues no item-field write. -/
theorem sfilter_no_item_writes (vals flds : List String) (fld : String) :
    itemFieldWrites (_set_filter vals flds fld) = [] := by
  unfold _set_filter
  split <;> rfl

/-- C4: when every filtered row's current text and assignment already
equal the requested values (exactly the state a successful pass leaves
behind, so a second run with identical inputs is such a run), the whole
run performs zero item-field writes — no row is mutated — and, provided
every request key has a matching row, every returned entry's message is
the combined "aready contains the desired value" message. -/
theorem C4_idempotent_rerun (env : Env) (accounts : List String)
    (company_code : String) (parameters : List (String × ChangeRequest))
    (status layout : String) (tr : List Event)
    (out : List (String × ChangeOutcome))
    (hrun : change_document_parameters env accounts company_code parameters
      status layout = (tr, Except.ok out))
    (hrows : ∀ r ∈ env.filteredRows, dictLookup r.text parameters
      = some { new_text := some r.text, new_assignment := some r.assignment })
    (hcov : ∀ p ∈ parameters, ∃ r ∈ env.filteredRows, r.text = p.1) :
    itemFieldWrites tr = []
    ∧ ∀ p ∈ out, p.2.message = some alreadyBothMsg := by
  obtain ⟨ev2, ev4, ev5, grid, evsL, hsb, hcc, hacc, hsel, hload, hpl, htr⟩ :=
    cdp_ok_shape env accounts company_code parameters status layout tr out hrun
  have hg : grid = env.filteredRows := load_items_ok_eq _ _ _ _ hload
  subst hg
  obtain ⟨evs, hpl2, hw⟩ := process_rows_all_equal env.assignmentFieldPresent
    parameters env.filteredRows hrows 0 (init_output parameters)
  rw [hpl] at hpl2
  have hevs := congrArg Prod.fst hpl2
  dsimp only at hevs
  have hout := congrArg Prod.snd hpl2
  dsimp only at hout
  injection hout with hout'
  constructor
  · have h2 := scc_ok_no_item_writes _ _ _ _ hcc
    have h4 := sacc_ok_no_item_writes _ _ hacc
    have h5 := ssel_ok_no_item_writes _ _ hsel
    have h1 := toggle_no_item_writes false env.worklistFieldPresent
    have h3 := set_layout_no_item_writes layout
    have h7 := sfilter_no_item_writes (parameters.map Prod.fst) env.filterFields "SGTXT"
    rw [htr]
    simp only [itemFieldWrites, List.filter_append] at h1 h2 h3 h4 h5 h7 hw ⊢
    rw [h1, h2, h3, h4, h5, h7, hevs, hw]
    rfl
  · intro p hp
    rw [hout'] at hp
    simp only [List.mem_map] at hp
    obtain ⟨q, hq, hqe⟩ := hp
    simp only [init_output, List.mem_map] at hq
    obtain ⟨pp, hpp, hppe⟩ := hq
    have hqkey : q.1 = pp.1 := by rw [← hppe]
    obtain ⟨r, hrmem, hrtext⟩ := hcov pp hpp
    have hany : (env.filteredRows.any (fun r => r.text == q.1)) = true := by
      rw [List.any_eq_true]
      exact ⟨r, hrmem, by rw [beq_iff_eq, hrtext, hqkey]⟩
    rw [← hqe]
    simp [hany]

/-- Environment for the C4 witness: one row already carrying the
requested values. -/
def envC4 : Env :=
  { sessBound := true, worklistFieldPresent := false, sdBukrsPresent := true,
    soWlbukPresent := false, f8ok := true, statusText := some "1 items displayed",
    filteredRows := [⟨"T1", "A1"⟩], assignmentFieldPresent := true,
    filterFields := ["SGTXT"] }

/-- Request mapping for the C4 witness: targets equal to current values. -/
def paramsC4 : List (String × ChangeRequest) :=
  [("T1", ⟨some "T1", some "A1"⟩)]

/-- The run for the C4 witness. -/
def runC4 : List Event × Except SapError (List (String × ChangeOutcome)) :=
  change_document_parameters envC4 ["999"] "0001" paramsC4 "open" ""

/-- Witness for C4 at a concrete run whose fields already equal the
targets. -/
theorem C4_witness :
    itemFieldWrites runC4.1 = []
    ∧ ∀ p ∈ runC4.2.toOption.getD [], p.2.message = some alreadyBothMsg :=
  C4_idempotent_rerun envC4 ["999"] "0001" paramsC4 "open" "" runC4.1
    (runC4.2.toOption.getD []) rfl (by decide) (by decide)

/-- Environment for the C8 witness: load succeeds, the filtered grid is
empty. -/
def envC8 : Env :=
  { sessBound := true, worklistFieldPresent := false, sdBukrsPresent := true,
    soWlbukPresent := false, f8ok := true, statusText := some "5 items displayed",
    filteredRows := [], assignmentFieldPresent := true, filterFields := ["SGTXT"] }

/-- Witness for C8 at a concrete environment. -/
theorem C8_witness :
    (change_document_parameters envC8 ["123"] "0001"
        [("T", ⟨some "U", none⟩)] "open" "").2
      = Except.error (SapError.noItemsFoundError
          "Filtering on the searched text values returned no results!")
    ∧ (change_document_parameters envC8 ["123"] "0001"
        [("T", ⟨some "U", none⟩)] "open" "").1.getLast?
      = some (Event.pressKey "F3")
    ∧ (∀ m1 m2, SapError.noItemsFoundError m1 ≠ SapError.noItemsFoundWarning m2) :=
  C8_filter_miss envC8 ["123"] "0001" [("T", ⟨some "U", none⟩)] "open" "" _ _ _
    rfl rfl rfl rfl rfl rfl

end ArItemsUpdater
